import Mathlib

/-!
Shallow embedding of the `RenovationService` state store and its AI
workflows from the renovation-planner repository
(`services/renovation.service.ts` and
`components/renovation-planner/renovation-planner.component.ts`).

Modelling conventions:
* JavaScript `number` is modelled as the exact rational type `ℚ`
  (the claims under verification are exact-arithmetic statements).
* A `Partial<ShoppingItem>` argument is modelled as a record of
  `Option` fields; the object-spread `{ ...item, ...updates }` becomes a
  field-wise `Option.getD`.
* The JavaScript string-default idiom `s || d` (which yields `d` for the
  empty string or a missing value) is `strOr` / `optStrOr` below.
* `String.prototype.localeCompare` is modelled by the total lexicographic
  order on `String`; it stands in for the host locale collation, which is
  some fixed total order on strings.
* The `await ai.models.generateContent` call followed by `JSON.parse` is
  modelled by a `CallOutcome` value supplied by the environment: `ok v`
  when the transport succeeded and the response parsed to `v`, `thrown m`
  when either step threw a JavaScript error whose `message` field is `m`
  (`none` models a thrown value with no usable message).
* Fresh ids (`Date.now()`-based in the source) are supplied by the
  environment as explicit arguments (`newId` / `newIds`).
-/

namespace Renovation

/-- JS `s || d` on strings: the empty string is falsy. -/
def strOr (s d : String) : String := if s = "" then d else s

/-- `String.prototype.trim`: strip whitespace from both ends. -/
def jsTrim (s : String) : String :=
  String.mk
    (((s.data.dropWhile Char.isWhitespace).reverse.dropWhile
      Char.isWhitespace).reverse)

/-- JS `x || d` on a possibly-missing string field. -/
def optStrOr (s : Option String) (d : String) : String :=
  match s with
  | some v => strOr v d
  | none => d

/-- `ShoppingItem` from `shopping-item.interface.ts`. -/
structure ShoppingItem where
  id : String
  name : String
  category : String
  quantity : ℚ
  unit : String
  pricePerUnit : ℚ
  totalCost : ℚ
  purchased : Bool
deriving DecidableEq, Repr

/-- `Omit<ShoppingItem, 'id' | 'totalCost'>`, the argument of `addItem`. -/
structure ItemDraft where
  name : String
  category : String
  quantity : ℚ
  unit : String
  pricePerUnit : ℚ
  purchased : Bool
deriving DecidableEq, Repr

/-- `Partial<ShoppingItem>`, the second argument of `updateItem`:
every field optional, including `id` and `totalCost`. -/
structure ItemPatch where
  id : Option String := none
  name : Option String := none
  category : Option String := none
  quantity : Option ℚ := none
  unit : Option String := none
  pricePerUnit : Option ℚ := none
  totalCost : Option ℚ := none
  purchased : Option Bool := none
deriving DecidableEq, Repr

/-- The object spread `{ ...item, ...updates }`. -/
def patchApply (item : ShoppingItem) (u : ItemPatch) : ShoppingItem :=
  { id := u.id.getD item.id
    name := u.name.getD item.name
    category := u.category.getD item.category
    quantity := u.quantity.getD item.quantity
    unit := u.unit.getD item.unit
    pricePerUnit := u.pricePerUnit.getD item.pricePerUnit
    totalCost := u.totalCost.getD item.totalCost
    purchased := u.purchased.getD item.purchased }

/-- `RenovationService.addItem`: build the new item (fresh id supplied by
the environment, blank category and unit defaulted, `totalCost`
computed) and append it to the collection. -/
def addItem (newId : String) (draft : ItemDraft) (items : List ShoppingItem) :
    List ShoppingItem :=
  let newItem : ShoppingItem :=
    { id := newId
      name := draft.name
      category := strOr draft.category "Nekategorizirano"
      quantity := draft.quantity
      unit := strOr draft.unit "kom"
      pricePerUnit := draft.pricePerUnit
      totalCost := draft.quantity * draft.pricePerUnit
      purchased := draft.purchased }
  items ++ [newItem]

/-- The per-item body of `RenovationService.updateItem`: spread the
updates over the item, recompute `totalCost` when `quantity` or
`pricePerUnit` was supplied, re-apply the defaults when `category` or
`unit` was supplied. -/
def updateOne (u : ItemPatch) (item : ShoppingItem) : ShoppingItem :=
  let updated := patchApply item u
  let updated :=
    if u.quantity.isSome || u.pricePerUnit.isSome then
      { updated with totalCost := updated.quantity * updated.pricePerUnit }
    else updated
  let updated :=
    match u.category with
    | some c => { updated with category := strOr c "Nekategorizirano" }
    | none => updated
  let updated :=
    match u.unit with
    | some un => { updated with unit := strOr un "kom" }
    | none => updated
  updated

/-- `RenovationService.updateItem`: map over the collection, rewriting
the items whose id matches; a missing id is a silent no-op. -/
def updateItem (id : String) (u : ItemPatch) (items : List ShoppingItem) :
    List ShoppingItem :=
  items.map (fun item => if item.id = id then updateOne u item else item)

/-- `RenovationService.removeItem`. -/
def removeItem (id : String) (items : List ShoppingItem) : List ShoppingItem :=
  items.filter (fun item => item.id != id)

/-- `RenovationService.totalBudget`: `reduce((sum, item) => sum + item.totalCost, 0)`. -/
def totalBudget (items : List ShoppingItem) : ℚ :=
  items.foldl (fun sum item => sum + item.totalCost) 0

/-- `RenovationService.budgetDifference`: `userBudget() - totalBudget()`. -/
def budgetDifference (userBudget : ℚ) (items : List ShoppingItem) : ℚ :=
  userBudget - totalBudget items

/-- C1: for every draft lacking id and totalCost, `addItem` always
succeeds and appends exactly one new item at the end of the collection,
whose `totalCost` is `draft.quantity * draft.pricePerUnit`, whose
category is the default token exactly when the draft category is blank,
and whose unit is the default unit token exactly when the draft unit is
blank; all previously stored items are unchanged (they form the
unchanged prefix of the result). -/
theorem addItem_appends_one (newId : String) (draft : ItemDraft)
    (items : List ShoppingItem) :
    addItem newId draft items =
      items ++ [{ id := newId
                  name := draft.name
                  category := if draft.category = "" then "Nekategorizirano"
                              else draft.category
                  quantity := draft.quantity
                  unit := if draft.unit = "" then "kom" else draft.unit
                  pricePerUnit := draft.pricePerUnit
                  totalCost := draft.quantity * draft.pricePerUnit
                  purchased := draft.purchased }]
    ∧ (addItem newId draft items).take items.length = items
    ∧ (addItem newId draft items).length = items.length + 1 := by
  refine ⟨rfl, ?_, ?_⟩
  · simp [addItem]
  · simp [addItem]

/-- The patch `{ quantity: q }`. -/
def quantityPatch (q : ℚ) : ItemPatch := { quantity := some q }

/-- C2: `updateItem(id, { quantity: q })` rewrites every stored item
carrying identifier `id` so that its quantity is `q` and its `totalCost`
is `q * (existing pricePerUnit)`, leaving all other items in place; and
for an `id` present on no item, `updateItem(id, u)` returns the
collection unchanged for every patch `u` (a silent no-op, no error). -/
theorem updateItem_quantity_recompute (id : String) (q : ℚ) (u : ItemPatch)
    (items : List ShoppingItem) :
    updateItem id (quantityPatch q) items =
      items.map (fun item =>
        if item.id = id then
          { item with quantity := q, totalCost := q * item.pricePerUnit }
        else item)
    ∧ ((∀ item ∈ items, item.id ≠ id) → updateItem id u items = items) := by
  constructor
  · rfl
  · intro h
    unfold updateItem
    rw [List.map_congr_left, List.map_id]
    intro item hm
    exact if_neg (h item hm)

/-- C2 witness: a concrete update of the stored quantity, and a concrete
no-op on an id that is not present. -/
theorem updateItem_quantity_recompute_witness :
    updateItem "zz" { name := some "B" }
        [{ id := "1", name := "A", category := "X", quantity := 2,
           unit := "kom", pricePerUnit := 3, totalCost := 6,
           purchased := false }] =
      [{ id := "1", name := "A", category := "X", quantity := 2,
         unit := "kom", pricePerUnit := 3, totalCost := 6,
         purchased := false }] :=
  (updateItem_quantity_recompute "zz" 5 { name := some "B" }
      [{ id := "1", name := "A", category := "X", quantity := 2,
         unit := "kom", pricePerUnit := 3, totalCost := 6,
         purchased := false }]).2
    (by intro item hm; simp at hm; subst hm; decide)

/-- A public store operation of `RenovationService`. -/
inductive StoreOp where
  | add (newId : String) (draft : ItemDraft)
  | update (id : String) (patch : ItemPatch)
  | remove (id : String)
  | clear
deriving DecidableEq, Repr

/-- Apply one store operation (`clearAllItems` resets to the empty list). -/
def applyOp (items : List ShoppingItem) (op : StoreOp) : List ShoppingItem :=
  match op with
  | .add newId draft => addItem newId draft items
  | .update id patch => updateItem id patch items
  | .remove id => removeItem id items
  | .clear => []

/-- Apply a sequence of store operations, first one first. -/
def applyOps (ops : List StoreOp) (items : List ShoppingItem) :
    List ShoppingItem :=
  ops.foldl applyOp items

/-- Every stored item's `totalCost` agrees with `quantity * pricePerUnit`. -/
def CostInvariant (items : List ShoppingItem) : Prop :=
  ∀ item ∈ items, item.totalCost = item.quantity * item.pricePerUnit

/-- A patch that does not smuggle in an independent `totalCost`: either it
leaves `totalCost` alone or it also touches `quantity`/`pricePerUnit`
(in which case `updateItem` recomputes `totalCost` anyway). -/
def patchGood (u : ItemPatch) : Bool :=
  u.totalCost.isNone || u.quantity.isSome || u.pricePerUnit.isSome

/-- An operation whose patch (if any) is `patchGood`. -/
def opGood (op : StoreOp) : Bool :=
  match op with
  | .update _ u => patchGood u
  | _ => true

lemma updateOne_cost_good (u : ItemPatch) (item : ShoppingItem)
    (hgood : patchGood u = true)
    (hitem : item.totalCost = item.quantity * item.pricePerUnit) :
    (updateOne u item).totalCost =
      (updateOne u item).quantity * (updateOne u item).pricePerUnit := by
  obtain ⟨uid, una, uca, uqu, uun, upr, uto, upu⟩ := u
  cases uqu <;> cases upr <;> cases uca <;> cases uun <;> cases uto <;>
    simp [updateOne, patchApply, patchGood] at hgood ⊢ <;> simp_all

lemma costInvariant_applyOp (items : List ShoppingItem) (op : StoreOp)
    (hop : opGood op = true) (h : CostInvariant items) :
    CostInvariant (applyOp items op) := by
  cases op with
  | add newId draft =>
    intro item hm
    simp [applyOp, addItem] at hm
    rcases hm with hm | hm
    · exact h item hm
    · subst hm; rfl
  | update id u =>
    intro item hm
    simp [applyOp, updateItem] at hm
    obtain ⟨a, ha, hfa⟩ := hm
    by_cases hid : a.id = id
    · rw [if_pos hid] at hfa
      subst hfa
      exact updateOne_cost_good u a hop (h a ha)
    · rw [if_neg hid] at hfa
      subst hfa
      exact h a ha
  | remove id =>
    intro item hm
    simp [applyOp, removeItem] at hm
    exact h item hm.1
  | clear =>
    intro item hm
    simp [applyOp] at hm

lemma costInvariant_applyOps (ops : List StoreOp) :
    ∀ items, (∀ op ∈ ops, opGood op = true) → CostInvariant items →
      CostInvariant (applyOps ops items) := by
  induction ops with
  | nil => intro items _ h; exact h
  | cons op rest ih =>
    intro items hops h
    exact ih (applyOp items op)
      (fun o ho => hops o (List.mem_cons_of_mem _ ho))
      (costInvariant_applyOp items op (hops op (List.mem_cons_self _ _)) h)

/-- C3 counterexample: the claim as stated is false. Starting from the
empty store, add one item (quantity 2, price 3, so totalCost 6) and then
call `updateItem` with the partial-fields argument `{ totalCost: 99 }` —
a legal `Partial<ShoppingItem>`. The spread keeps 99 and the recompute
branch does not fire, so the stored item ends with `totalCost = 99` while
`quantity * pricePerUnit = 6`: `totalCost` was set independently through a
public store operation. -/
theorem costInvariant_counterexample :
    ¬ CostInvariant (applyOps
      [StoreOp.add "1" { name := "A", category := "X", quantity := 2,
                         unit := "kom", pricePerUnit := 3, purchased := false },
       StoreOp.update "1" { totalCost := some 99 }] []) := by
  intro h
  have h1 := h
    { id := "1", name := "A", category := "X", quantity := 2,
      unit := "kom", pricePerUnit := 3, totalCost := 99, purchased := false }
  simp [applyOps, applyOp, addItem, updateItem, updateOne, patchApply,
    strOr] at h1
  norm_num at h1

/-- C3 (amended): after any sequence of store operations whose
`updateItem` patches never supply `totalCost` without also supplying
`quantity` or `pricePerUnit`, every stored item satisfies
`totalCost = quantity * pricePerUnit`. (The unrestricted claim fails:
a patch containing only `totalCost` sets it independently.) -/
theorem costInvariant_goodOps (ops : List StoreOp)
    (hops : ∀ op ∈ ops, opGood op = true) :
    CostInvariant (applyOps ops []) :=
  costInvariant_applyOps ops [] hops (by intro item hm; simp at hm)

/-- C3 witness: a concrete good sequence (add, quantity update, remove,
clear, add) keeps the invariant. -/
theorem costInvariant_goodOps_witness :
    CostInvariant (applyOps
      [StoreOp.add "1" { name := "A", category := "X", quantity := 2,
                         unit := "kom", pricePerUnit := 3, purchased := false },
       StoreOp.update "1" (quantityPatch 5),
       StoreOp.remove "1",
       StoreOp.clear,
       StoreOp.add "2" { name := "B", category := "", quantity := 1,
                         unit := "", pricePerUnit := 4, purchased := true }] []) :=
  costInvariant_goodOps
    [StoreOp.add "1" { name := "A", category := "X", quantity := 2,
                       unit := "kom", pricePerUnit := 3, purchased := false },
     StoreOp.update "1" (quantityPatch 5),
     StoreOp.remove "1",
     StoreOp.clear,
     StoreOp.add "2" { name := "B", category := "", quantity := 1,
                       unit := "", pricePerUnit := 4, purchased := true }]
    (by intro op hop; fin_cases hop <;> rfl)

lemma updateOne_id_of_none (u : ItemPatch) (item : ShoppingItem)
    (h : u.id = none) : (updateOne u item).id = item.id := by
  obtain ⟨uid, una, uca, uqu, uun, upr, uto, upu⟩ := u
  simp only [] at h
  subst h
  cases uqu <;> cases upr <;> cases uca <;> cases uun <;>
    simp [updateOne, patchApply]

/-- C9 counterexample: the claim as stated is false. `Partial<ShoppingItem>`
includes `id`, and `updateItem` spreads it: updating the item stored under
id "1" with the patch `{ id: "2" }` rewrites that item's id to "2". -/
theorem updateItem_id_counterexample :
    List.map ShoppingItem.id (updateItem "1" { id := some "2" }
      [{ id := "1", name := "A", category := "X", quantity := 2,
         unit := "kom", pricePerUnit := 3, totalCost := 6,
         purchased := false }]) ≠
    List.map ShoppingItem.id
      [{ id := "1", name := "A", category := "X", quantity := 2,
         unit := "kom", pricePerUnit := 3, totalCost := 6,
         purchased := false }] := by
  simp [updateItem, updateOne, patchApply]

/-- C9 (amended): item ids are stable under the store operations provided
`updateItem`'s partial-fields argument does not itself contain `id`: such
an update preserves the stored ids position by position, and `addItem`
leaves every existing id in place, only appending the fresh one. (The
unrestricted claim fails: a patch containing `id` rewrites the stored id.) -/
theorem ids_stable (id newId : String) (u : ItemPatch) (draft : ItemDraft)
    (items : List ShoppingItem) (h : u.id = none) :
    List.map ShoppingItem.id (updateItem id u items) =
      List.map ShoppingItem.id items
    ∧ List.map ShoppingItem.id (addItem newId draft items) =
      List.map ShoppingItem.id items ++ [newId] := by
  constructor
  · unfold updateItem
    rw [List.map_map]
    apply List.map_congr_left
    intro item hm
    by_cases hid : item.id = id
    · simp [hid, updateOne_id_of_none u item h]
    · simp [hid]
  · simp [addItem]

/-- C9 witness: a concrete id-free patch leaves the stored ids unchanged,
and a concrete add appends its fresh id. -/
theorem ids_stable_witness :
    List.map ShoppingItem.id (updateItem "1" (quantityPatch 5)
      [{ id := "1", name := "A", category := "X", quantity := 2,
         unit := "kom", pricePerUnit := 3, totalCost := 6,
         purchased := false }]) =
      List.map ShoppingItem.id
        [{ id := "1", name := "A", category := "X", quantity := 2,
           unit := "kom", pricePerUnit := 3, totalCost := 6,
           purchased := false }]
    ∧ List.map ShoppingItem.id (addItem "7"
        { name := "B", category := "", quantity := 1, unit := "",
          pricePerUnit := 4, purchased := true }
        [{ id := "1", name := "A", category := "X", quantity := 2,
           unit := "kom", pricePerUnit := 3, totalCost := 6,
           purchased := false }]) =
      List.map ShoppingItem.id
        [{ id := "1", name := "A", category := "X", quantity := 2,
           unit := "kom", pricePerUnit := 3, totalCost := 6,
           purchased := false }] ++ ["7"] :=
  ids_stable "1" "7" (quantityPatch 5)
    { name := "B", category := "", quantity := 1, unit := "",
      pricePerUnit := 4, purchased := true }
    [{ id := "1", name := "A", category := "X", quantity := 2,
       unit := "kom", pricePerUnit := 3, totalCost := 6,
       purchased := false }]
    rfl

lemma foldl_totalCost (l : List ShoppingItem) :
    ∀ a : ℚ, l.foldl (fun sum item => sum + item.totalCost) a =
      a + (l.map (fun item => item.totalCost)).sum := by
  induction l with
  | nil => intro a; simp
  | cons x rest ih => intro a; simp [ih, add_assoc]

/-- C8: after any sequence of CRUD operations applied to the (initially
empty) store, `totalBudget()` equals the sum of `totalCost` over the items
returned by `allItems()`, and `budgetDifference()` equals the user budget
minus `totalBudget()`. -/
theorem totalBudget_sum (ops : List StoreOp) (userBudget : ℚ) :
    totalBudget (applyOps ops []) =
      ((applyOps ops []).map (fun item => item.totalCost)).sum
    ∧ budgetDifference userBudget (applyOps ops []) =
      userBudget - totalBudget (applyOps ops []) := by
  constructor
  · rw [totalBudget, foldl_totalCost, zero_add]
  · rfl

/-- `CategorizedShoppingItem` from `shopping-item.interface.ts`. -/
structure CategorizedShoppingItem where
  categoryName : String
  items : List ShoppingItem
deriving DecidableEq, Repr

/-- The grouping key of `categorizedItems`: `item.category?.trim() || 'Nekategorizirano'`. -/
def categoryKey (item : ShoppingItem) : String :=
  strOr (jsTrim item.category) "Nekategorizirano"

/-- JS object-key insertion: a key is recorded once, in first-seen order. -/
def keysInsert (ks : List String) (k : String) : List String :=
  if k ∈ ks then ks else ks ++ [k]

/-- The keys of the `categories` object built by `categorizedItems`,
in insertion order. -/
def categoryKeys (items : List ShoppingItem) : List String :=
  items.foldl (fun ks item => keysInsert ks (categoryKey item)) []

/-- The comparator `(a, b) => a.name.localeCompare(b.name)` (as the
modelled total order on names). -/
def nameLe (a b : ShoppingItem) : Prop := a.name ≤ b.name

instance : DecidableRel nameLe :=
  fun a b => inferInstanceAs (Decidable (a.name ≤ b.name))

instance : IsTotal ShoppingItem nameLe := ⟨fun a b => le_total a.name b.name⟩

instance : IsTrans ShoppingItem nameLe := ⟨fun _ _ _ h h' => le_trans h h'⟩

/-- `array.sort((a, b) => a.name.localeCompare(b.name))`. -/
def sortByName (l : List ShoppingItem) : List ShoppingItem :=
  l.insertionSort nameLe

/-- `RenovationService.categorizedItems`: group the items by trimmed
category (blank category mapped to the default token), sort each group's
items by name, sort the groups by category name, and return the groups. -/
def categorizedItems (items : List ShoppingItem) : List CategorizedShoppingItem :=
  (List.insertionSort (· ≤ ·) (categoryKeys items)).map (fun k =>
    { categoryName := k
      items := sortByName (items.filter (fun item => categoryKey item == k)) })

lemma mem_keysInsert (ks : List String) (k a : String) :
    a ∈ keysInsert ks k ↔ a ∈ ks ∨ a = k := by
  by_cases h : k ∈ ks
  · simp only [keysInsert, if_pos h]
    constructor
    · exact Or.inl
    · rintro (ha | rfl)
      · exact ha
      · exact h
  · simp [keysInsert, if_neg h]

lemma mem_foldl_keys (l : List ShoppingItem) :
    ∀ (acc : List String) (a : String),
      a ∈ l.foldl (fun ks item => keysInsert ks (categoryKey item)) acc ↔
        a ∈ acc ∨ ∃ item ∈ l, categoryKey item = a := by
  induction l with
  | nil => intro acc a; simp
  | cons x rest ih =>
    intro acc a
    rw [List.foldl_cons, ih, mem_keysInsert]
    simp only [List.mem_cons]
    constructor
    · rintro (⟨ha | rfl⟩ | ⟨item, hi, hk⟩)
      · exact Or.inl ha
      · exact Or.inr ⟨x, Or.inl rfl, rfl⟩
      · exact Or.inr ⟨item, Or.inr hi, hk⟩
    · rintro (ha | ⟨item, rfl | hi, hk⟩)
      · exact Or.inl (Or.inl ha)
      · exact Or.inl (Or.inr hk.symm)
      · exact Or.inr ⟨item, hi, hk⟩

lemma mem_categoryKeys (items : List ShoppingItem) (a : String) :
    a ∈ categoryKeys items ↔ ∃ item ∈ items, categoryKey item = a := by
  rw [categoryKeys, mem_foldl_keys]
  simp

/-- C4: `categorizedItems()` groups the collection by trimmed category
(blank mapped to the default token), returns the groups sorted by category
name, sorts the items inside each group by name, and — being a pure
function of the collection — two consecutive reads with no mutation in
between are value-equal. Concretely: (1) a second read equals the first;
(2) the groups are pairwise ordered by category name; (3) each group's
items are pairwise ordered by name; (4) every item of a group has that
group's trimmed category; (5) every stored item appears in some group. -/
theorem categorizedItems_spec (items : List ShoppingItem) :
    (categorizedItems items = categorizedItems items)
    ∧ List.Pairwise (fun g h => g.categoryName ≤ h.categoryName)
        (categorizedItems items)
    ∧ (∀ g ∈ categorizedItems items,
        List.Pairwise (fun a b => a.name ≤ b.name) g.items)
    ∧ (∀ g ∈ categorizedItems items, ∀ item ∈ g.items,
        categoryKey item = g.categoryName)
    ∧ (∀ item ∈ items, ∃ g ∈ categorizedItems items, item ∈ g.items) := by
  refine ⟨rfl, ?_, ?_, ?_, ?_⟩
  · exact List.Pairwise.map _ (fun a b h => h)
      (List.sorted_insertionSort (· ≤ ·) (categoryKeys items))
  · intro g hg
    obtain ⟨k, _, rfl⟩ := List.mem_map.mp hg
    exact List.sorted_insertionSort nameLe _
  · intro g hg item hi
    obtain ⟨k, _, rfl⟩ := List.mem_map.mp hg
    have hi' := (List.perm_insertionSort nameLe _).mem_iff.mp hi
    have := List.mem_filter.mp hi'
    simpa using this.2
  · intro item hitem
    refine ⟨_, List.mem_map_of_mem _
      ((List.perm_insertionSort (· ≤ ·) _).mem_iff.mpr
        ((mem_categoryKeys items (categoryKey item)).mpr
          ⟨item, hitem, rfl⟩)), ?_⟩
    exact (List.perm_insertionSort nameLe _).mem_iff.mpr
      (List.mem_filter.mpr ⟨hitem, by simp⟩)

/-- `GeneratedShoppingItem` as defensively consumed by
`generateRenovationMaterials`: the string fields may be missing in the
parsed response (the source guards them with `||`). -/
structure GeneratedShoppingItem where
  name : String
  category : Option String
  quantity : ℚ
  unit : Option String
  estimatedPricePerUnit : ℚ
deriving DecidableEq, Repr

/-- `GeneratedProductSuggestion` from `shopping-item.interface.ts`. -/
structure GeneratedProductSuggestion where
  productName : String
  suggestedPrice : ℚ
  webShopLink : String
  category : String
  storeName : String
  originalShoppingItemName : String
deriving DecidableEq, Repr

/-- The signal fields of `RenovationService`. -/
structure ServiceState where
  items : List ShoppingItem
  isGenerating : Bool
  aiError : Option String
  detailedAnalysisResult : Option String
  isGeneratingDetailedAnalysis : Bool
  shoppingListSuggestions : List GeneratedProductSuggestion
  isGeneratingShoppingList : Bool
  operationalBriefResult : Option String
  isGeneratingOperationalBrief : Bool
  userBudget : ℚ
deriving DecidableEq, Repr

/-- The environment's answer to `await generateContent` followed by
`JSON.parse`: `ok v` when the transport succeeded and the response parsed
to `v`; `thrown m` when either step threw a JavaScript error whose
`message` is `m` (`none` models a thrown value without a message). -/
inductive CallOutcome (α : Type) where
  | ok (value : α)
  | thrown (message : Option String)
deriving DecidableEq, Repr

/-- `error.message || 'Nepoznata greška.'`. -/
def errDetail (m : Option String) : String := optStrOr m "Nepoznata greška."

/-- The error text set by the material-generation catch block. -/
def matErrText (m : Option String) : String :=
  "Greška pri generiranju popisa. Molimo pokušajte ponovno. Detalji: "
    ++ errDetail m

/-- Map one parsed material entry to a `ShoppingItem` (fresh id supplied
by the environment, missing or blank category and unit defaulted,
`totalCost` computed). -/
def toShoppingItem (newId : String) (g : GeneratedShoppingItem) : ShoppingItem :=
  { id := newId
    name := g.name
    category := optStrOr g.category "Nekategorizirano"
    quantity := g.quantity
    unit := optStrOr g.unit "kom"
    pricePerUnit := g.estimatedPricePerUnit
    totalCost := g.quantity * g.estimatedPricePerUnit
    purchased := false }

/-- `RenovationService.generateRenovationMaterials`: set the pending flag
and clear the error, then either append the batch mapped from the parsed
response, or record the catch-block error; the `finally` block clears the
pending flag on both paths. -/
def generateRenovationMaterials
    (outcome : CallOutcome (List GeneratedShoppingItem))
    (newIds : Nat → String) (s : ServiceState) : ServiceState :=
  let s1 := { s with isGenerating := true, aiError := none }
  match outcome with
  | .ok gen =>
    let itemsToAdd := gen.enum.map (fun p => toShoppingItem (newIds p.1) p.2)
    let s2 := { s1 with items := s1.items ++ itemsToAdd }
    { s2 with isGenerating := false }
  | .thrown m =>
    let s2 := { s1 with aiError := some (matErrText m) }
    { s2 with isGenerating := false }

/-- The error text set by the suggestion-generation catch block. -/
def suggErrText (m : Option String) : String :=
  "Greška pri generiranju shopping liste. Molimo provjerite da imate stavke na popisu i pokušajte ponovno. Detalji: "
    ++ errDetail m

/-- The first three statements of
`RenovationService.generateShoppingListSuggestions`, executed before the
empty-collection check: pending flag true, error cleared, previous
suggestions cleared. -/
def suggestionsEntry (s : ServiceState) : ServiceState :=
  { s with isGeneratingShoppingList := true
           aiError := none
           shoppingListSuggestions := [] }

/-- The early return taken when the supplied collection is empty: error
set, pending flag set back to false. -/
def suggestionsEmptyReject (s : ServiceState) : ServiceState :=
  { s with aiError := some "Popis za kupnju je prazan. Dodajte stavke prije generiranja preporuka."
           isGeneratingShoppingList := false }

/-- `generateShoppingListSuggestions` after its entry statements: the
empty-collection early return, or the try/catch/finally around the
request. -/
def suggestionsAfterEntry (shoppingItems : List ShoppingItem)
    (outcome : CallOutcome (List GeneratedProductSuggestion))
    (s : ServiceState) : ServiceState :=
  if shoppingItems.isEmpty then suggestionsEmptyReject s
  else
    match outcome with
    | .ok gen => { s with shoppingListSuggestions := gen
                          isGeneratingShoppingList := false }
    | .thrown m => { s with aiError := some (suggErrText m)
                            isGeneratingShoppingList := false }

/-- `RenovationService.generateShoppingListSuggestions`: the entry
statements run first, then the empty check and the request. -/
def generateShoppingListSuggestions (shoppingItems : List ShoppingItem)
    (outcome : CallOutcome (List GeneratedProductSuggestion))
    (s : ServiceState) : ServiceState :=
  suggestionsAfterEntry shoppingItems outcome (suggestionsEntry s)

/-- `RenovationPlannerComponent.onGenerateList`: trim the prompt, reject a
blank one with an error before calling the service. (The handler also
resets the component's own prompt input field, a component-local signal
outside the service state.) -/
def onGenerateList (aiPrompt : String)
    (outcome : CallOutcome (List GeneratedShoppingItem))
    (newIds : Nat → String) (s : ServiceState) : ServiceState :=
  let prompt := jsTrim aiPrompt
  if prompt = "" then
    { s with aiError := some "Molimo unesite opis stana za generiranje popisa." }
  else generateRenovationMaterials outcome newIds s

/-- `RenovationPlannerComponent.onGenerateShoppingList`: reject an empty
item collection with an error before calling the service. -/
def onGenerateShoppingList
    (outcome : CallOutcome (List GeneratedProductSuggestion))
    (s : ServiceState) : ServiceState :=
  if s.items.isEmpty then
    { s with aiError := some "Vaš popis za kupnju je prazan. Dodajte stavke prije generiranja preporuka za shopping listu." }
  else generateShoppingListSuggestions s.items outcome s

/-- C5: on a transport or parse failure (`thrown`), the material workflow
leaves the item collection exactly as it was, sets the shared error slot
to its catch-block message carrying the underlying detail, and the
`finally` block clears the pending flag on every outcome; the suggestion
workflow (called on a non-empty collection) likewise leaves the items
untouched, leaves the suggestion list empty, sets the shared error slot
to its catch-block message, and clears its pending flag on every outcome.
`errDetail` is the underlying failure detail when available, and the
fallback text otherwise. -/
theorem aiFailure_handling (s : ServiceState) (m mS : Option String)
    (dd : String) (newIds : Nat → String)
    (outcome : CallOutcome (List GeneratedShoppingItem))
    (outS : CallOutcome (List GeneratedProductSuggestion))
    (it0 : ShoppingItem) (rest : List ShoppingItem) :
    (generateRenovationMaterials (.thrown m) newIds s).items = s.items
    ∧ (generateRenovationMaterials (.thrown m) newIds s).aiError =
        some (matErrText m)
    ∧ (generateRenovationMaterials outcome newIds s).isGenerating = false
    ∧ (generateShoppingListSuggestions (it0 :: rest) (.thrown mS) s).items
        = s.items
    ∧ (generateShoppingListSuggestions (it0 :: rest) (.thrown mS) s).shoppingListSuggestions = []
    ∧ (generateShoppingListSuggestions (it0 :: rest) (.thrown mS) s).aiError
        = some (suggErrText mS)
    ∧ (generateShoppingListSuggestions (it0 :: rest) outS s).isGeneratingShoppingList = false
    ∧ errDetail (some dd) = (if dd = "" then "Nepoznata greška." else dd)
    ∧ errDetail none = "Nepoznata greška." := by
  refine ⟨rfl, rfl, ?_, rfl, rfl, rfl, ?_, rfl, rfl⟩
  · cases outcome <;> rfl
  · cases outS <;> rfl

/-- C7: on a successfully parsed material-generation response, the parsed
entries are mapped (in order, with environment-supplied fresh ids) through
`toShoppingItem` and appended to the existing collection, whose items form
the unchanged prefix of the result; each mapped item keeps the assigned
id, defaults a missing or blank category to the default token, defaults a
missing or blank unit to the default unit token, and has
`totalCost = quantity * estimatedPricePerUnit`. -/
theorem generateMaterials_success (s : ServiceState)
    (gen : List GeneratedShoppingItem) (newIds : Nat → String)
    (i : String) (g : GeneratedShoppingItem) :
    (generateRenovationMaterials (.ok gen) newIds s).items =
      s.items ++ gen.enum.map (fun p => toShoppingItem (newIds p.1) p.2)
    ∧ ((generateRenovationMaterials (.ok gen) newIds s).items).take
        s.items.length = s.items
    ∧ (toShoppingItem i g).id = i
    ∧ (toShoppingItem i g).category =
        (match g.category with
         | none => "Nekategorizirano"
         | some c => if c = "" then "Nekategorizirano" else c)
    ∧ (toShoppingItem i g).unit =
        (match g.unit with
         | none => "kom"
         | some un => if un = "" then "kom" else un)
    ∧ (toShoppingItem i g).totalCost = g.quantity * g.estimatedPricePerUnit := by
  refine ⟨rfl, ?_, rfl, ?_, ?_, rfl⟩
  · simp [generateRenovationMaterials]
  · cases hc : g.category <;> simp [toShoppingItem, optStrOr, strOr, hc]
  · cases hu : g.unit <;> simp [toShoppingItem, optStrOr, strOr, hu]

/-- C10: every call to `generateShoppingListSuggestions` first runs its
entry statements — suggestion slot set to the empty list, pending flag set
true, error cleared — and only then the empty-collection check; hence a
call with an empty collection still goes through a state whose pending
flag is true and whose previous suggestions are erased, and ends rejected
with the error set, the suggestion slot empty, and the pending flag
cleared again. -/
theorem suggestions_entry_precedes_check (s : ServiceState)
    (shoppingItems : List ShoppingItem)
    (outcome : CallOutcome (List GeneratedProductSuggestion)) :
    generateShoppingListSuggestions shoppingItems outcome s =
      suggestionsAfterEntry shoppingItems outcome (suggestionsEntry s)
    ∧ (suggestionsEntry s).shoppingListSuggestions = []
    ∧ (suggestionsEntry s).isGeneratingShoppingList = true
    ∧ (suggestionsEntry s).aiError = none
    ∧ generateShoppingListSuggestions [] outcome s =
        suggestionsEmptyReject (suggestionsEntry s)
    ∧ (generateShoppingListSuggestions [] outcome s).shoppingListSuggestions = []
    ∧ (generateShoppingListSuggestions [] outcome s).aiError =
        some "Popis za kupnju je prazan. Dodajte stavke prije generiranja preporuka."
    ∧ (generateShoppingListSuggestions [] outcome s).isGeneratingShoppingList = false :=
  ⟨rfl, rfl, rfl, rfl, rfl, rfl, rfl, rfl⟩

/-- A concrete service state: empty item collection, one previously stored
suggestion, no workflow pending. -/
def stateC6 : ServiceState :=
  { items := []
    isGenerating := false
    aiError := none
    detailedAnalysisResult := none
    isGeneratingDetailedAnalysis := false
    shoppingListSuggestions :=
      [{ productName := "P", suggestedPrice := 1, webShopLink := "L",
         category := "C", storeName := "S", originalShoppingItemName := "O" }]
    isGeneratingShoppingList := false
    operationalBriefResult := none
    isGeneratingOperationalBrief := false
    userBudget := 0 }

/-- C6 counterexample: the claim as stated is false for the service-level
suggestion workflow. Called with the empty collection on a state whose
pending flag is false, `generateShoppingListSuggestions` factors through
`suggestionsEntry`, which sets the pending flag to true (and erases the
previously stored suggestions) before the empty-collection check runs —
so the workflow does momentarily enter Pending. -/
theorem clientValidation_counterexample :
    (suggestionsEntry stateC6).isGeneratingShoppingList = true
    ∧ generateShoppingListSuggestions [] (CallOutcome.thrown none) stateC6 =
        suggestionsAfterEntry [] (CallOutcome.thrown none)
          (suggestionsEntry stateC6)
    ∧ stateC6.isGeneratingShoppingList = false
    ∧ stateC6.shoppingListSuggestions ≠ []
    ∧ (generateShoppingListSuggestions [] (CallOutcome.thrown none)
        stateC6).shoppingListSuggestions = [] := by
  refine ⟨rfl, rfl, rfl, ?_, rfl⟩
  simp [stateC6]

/-- C6 (amended): every client-side validation failure is rejected before
any request is issued with the shared error slot set. Through the UI
handlers — a blank description in `onGenerateList`, an empty collection in
`onGenerateShoppingList` — the rejection happens before the service is
called, so no pending flag changes. The service-level suggestion
operation called with an empty collection also rejects before the
request with the error set and its pending flag false on return, but its
entry statements set the pending flag true first (it momentarily enters
Pending). -/
theorem clientValidation_amended (p : String) (s : ServiceState)
    (outcome : CallOutcome (List GeneratedShoppingItem))
    (outS : CallOutcome (List GeneratedProductSuggestion))
    (newIds : Nat → String)
    (hp : jsTrim p = "") (hs : s.items = []) :
    (onGenerateList p outcome newIds s).aiError =
      some "Molimo unesite opis stana za generiranje popisa."
    ∧ (onGenerateList p outcome newIds s).isGenerating = s.isGenerating
    ∧ (onGenerateList p outcome newIds s).items = s.items
    ∧ (onGenerateShoppingList outS s).aiError =
      some "Vaš popis za kupnju je prazan. Dodajte stavke prije generiranja preporuka za shopping listu."
    ∧ (onGenerateShoppingList outS s).isGeneratingShoppingList =
        s.isGeneratingShoppingList
    ∧ (onGenerateShoppingList outS s).shoppingListSuggestions =
        s.shoppingListSuggestions
    ∧ generateShoppingListSuggestions [] outS s =
        suggestionsEmptyReject (suggestionsEntry s)
    ∧ (generateShoppingListSuggestions [] outS s).aiError =
        some "Popis za kupnju je prazan. Dodajte stavke prije generiranja preporuka."
    ∧ (generateShoppingListSuggestions [] outS s).isGeneratingShoppingList
        = false
    ∧ (suggestionsEntry s).isGeneratingShoppingList = true := by
  have hempty : s.items.isEmpty = true := by rw [hs]; rfl
  refine ⟨?_, ?_, ?_, ?_, ?_, ?_, rfl, rfl, rfl, rfl⟩ <;>
    simp [onGenerateList, onGenerateShoppingList, hp, hempty]

/-- C6 witness: the blank prompt and the concrete empty-collection state. -/
theorem clientValidation_amended_witness :
    (onGenerateList "" (CallOutcome.thrown none) (fun _ => "9")
        stateC6).aiError =
      some "Molimo unesite opis stana za generiranje popisa."
    ∧ (onGenerateList "" (CallOutcome.thrown none) (fun _ => "9")
        stateC6).isGenerating = stateC6.isGenerating
    ∧ (onGenerateList "" (CallOutcome.thrown none) (fun _ => "9")
        stateC6).items = stateC6.items
    ∧ (onGenerateShoppingList (CallOutcome.thrown none) stateC6).aiError =
      some "Vaš popis za kupnju je prazan. Dodajte stavke prije generiranja preporuka za shopping listu."
    ∧ (onGenerateShoppingList (CallOutcome.thrown none)
        stateC6).isGeneratingShoppingList = stateC6.isGeneratingShoppingList
    ∧ (onGenerateShoppingList (CallOutcome.thrown none)
        stateC6).shoppingListSuggestions = stateC6.shoppingListSuggestions
    ∧ generateShoppingListSuggestions [] (CallOutcome.thrown none) stateC6 =
        suggestionsEmptyReject (suggestionsEntry stateC6)
    ∧ (generateShoppingListSuggestions [] (CallOutcome.thrown none)
        stateC6).aiError =
        some "Popis za kupnju je prazan. Dodajte stavke prije generiranja preporuka."
    ∧ (generateShoppingListSuggestions [] (CallOutcome.thrown none)
        stateC6).isGeneratingShoppingList = false
    ∧ (suggestionsEntry stateC6).isGeneratingShoppingList = true :=
  clientValidation_amended "" stateC6 (CallOutcome.thrown none)
    (CallOutcome.thrown none) (fun _ => "9") (by decide) rfl

end Renovation
